import Mathlib

/-!
Verification development for the `vscode-colorpicker` extension.

The repository consists of `lib/commands.js` (two exported variants of a
`showPicker` command handler built around one color-matching regular
expression) and an activation module that wires manifest-declared command
identifiers to exported handlers.

This file gives a shallow embedding of that code:
  * the regular expression `colorRegexp` is embedded as a small regex AST
    together with a backtracking matcher whose alternative order mirrors a
    JavaScript regex engine (leftmost alternative first, greedy/lazy
    quantifiers);
  * the host-editor API surface the handler uses (`getWordRangeAtPosition`,
    `getText`) is modelled with its documented VS Code semantics over
    single-line documents (offsets are character positions);
  * `showPicker` is embedded as a pure function from the editor state, the
    configuration, and an environment oracle (whether the `spawn` call throws
    synchronously, and the eventual process outcome) to the list of observable
    effects it performs.
-/

namespace ColorPicker

/-- Regular-expression abstract syntax, just rich enough for the source's
`colorRegexp` literal: character classes, concatenation, alternation, a greedy
option `?`, bounded repetition `{lo,hi}`, and greedy/lazy star of a character
class (every `*` in the source pattern is applied to the single character
`' '`). -/
inductive Regex where
  | eps : Regex
  | cls : (Char → Bool) → Regex
  | cat : Regex → Regex → Regex
  | alt : Regex → Regex → Regex
  | opt : Regex → Regex
  | rep : Nat → Nat → Regex → Regex
  | starG : (Char → Bool) → Regex
  | starL : (Char → Bool) → Regex

/-- Residual suffixes of a greedy class-star, longest consumption first
(the order a backtracking engine tries them in). -/
def starGRes (p : Char → Bool) : List Char → List (List Char)
  | [] => [[]]
  | c :: t => if p c then starGRes p t ++ [c :: t] else [c :: t]

/-- Residual suffixes of a lazy class-star, shortest consumption first. -/
def starLRes (p : Char → Bool) : List Char → List (List Char)
  | [] => [[]]
  | c :: t => if p c then (c :: t) :: starLRes p t else [c :: t]

/-- Residual suffixes after between `lo` and `hi` repetitions of a body whose
residual function is `f`, in greedy order (more repetitions first). -/
def repRes (f : List Char → List (List Char)) : Nat → Nat → List Char → List (List Char)
  | lo, 0, s => if lo = 0 then [s] else []
  | lo, hi + 1, s =>
    let cont := (f s).flatMap fun t => repRes f (lo - 1) hi t
    if lo = 0 then cont ++ [s] else cont

/-- All residual suffixes left after a prefix of `s` matches `r`, in the
priority order of a backtracking regex engine: the head of the list is the
match the engine reports. -/
def residuals : Regex → List Char → List (List Char)
  | .eps, s => [s]
  | .cls _, [] => []
  | .cls p, c :: t => if p c then [t] else []
  | .cat r1 r2, s => (residuals r1 s).flatMap (residuals r2)
  | .alt r1 r2, s => residuals r1 s ++ residuals r2 s
  | .opt r, s => residuals r s ++ [s]
  | .rep lo hi r, s => repRes (residuals r) lo hi s
  | .starG p, s => starGRes p s
  | .starL p, s => starLRes p s

/-- Whole-string match: some backtracking path consumes all of `s`. -/
def accepts (r : Regex) (s : List Char) : Bool :=
  (residuals r s).any List.isEmpty

/-- Length of the match a backtracking engine reports at the start of `s`
(its highest-priority path), or `none` when no prefix of `s` matches. -/
def firstMatchLen (r : Regex) (s : List Char) : Option Nat :=
  match residuals r s with
  | [] => none
  | t :: _ => some (s.length - t.length)

/-- Case-insensitive single-character class: the `/i` flag on the source
regex makes each letter match either case. -/
def chIP (c : Char) : Char → Bool := fun x => x.toLower == c.toLower

/-- Case-sensitive single-character class (digits and punctuation, which the
`/i` flag does not affect). -/
def chP (c : Char) : Char → Bool := fun x => x == c

/-- Literal character of the pattern, case-insensitively (`/i`). -/
def litI (c : Char) : Regex := .cls (chIP c)

/-- Literal character of the pattern, exactly. -/
def lit (c : Char) : Regex := .cls (chP c)

/-- `[0-9A-F]` under `/i`: a hexadecimal digit of either case. -/
def hexP (c : Char) : Bool :=
  c.isDigit || ('A' ≤ c && c ≤ 'F') || ('a' ≤ c && c ≤ 'f')

/-- The hex-digit character class of the pattern. -/
def hexCls : Regex := .cls hexP

/-- `\d+`: one or more decimal digits, greedy. -/
def digitPlus : Regex := .cat (.cls Char.isDigit) (.starG Char.isDigit)

/-- `(\.\d+)?`: an optional fractional part, requiring a digit after the dot. -/
def fracOpt : Regex := .opt (.cat (lit '.') digitPlus)

/-- `\d+(\.\d+)?`: a numeric component; note it must begin with a digit, so
`.5` is not a numeric component of this grammar. -/
def num : Regex := .cat digitPlus fracOpt

/-- ` *`: greedy run of spaces. -/
def spacesG : Regex := .starG (chP ' ')

/-- ` *?`: lazy run of spaces. -/
def spacesL : Regex := .starL (chP ' ')

/-- `%|deg|rad|grad|turn`, in the source's alternative order, letters
case-insensitive. -/
def unitAlt : Regex :=
  .alt (lit '%')
    (.alt (.cat (litI 'd') (.cat (litI 'e') (litI 'g')))
      (.alt (.cat (litI 'r') (.cat (litI 'a') (litI 'd')))
        (.alt (.cat (litI 'g') (.cat (litI 'r') (.cat (litI 'a') (litI 'd'))))
          (.cat (litI 't') (.cat (litI 'u') (.cat (litI 'r') (litI 'n')))))))

/-- `(\d+(\.\d+)? *(%|deg|rad|grad|turn)?[,\/ ] *?)`: one color component
followed by its separator — the group that the pattern repeats exactly three
times. -/
def comp : Regex :=
  .cat num (.cat spacesG (.cat (.opt unitAlt)
    (.cat (.cls fun c => c == ',' || c == '/' || c == ' ') spacesL)))

/-- `rgb`, case-insensitive. -/
def rgbLit : Regex := .cat (litI 'r') (.cat (litI 'g') (litI 'b'))

/-- `hsl`, case-insensitive. -/
def hslLit : Regex := .cat (litI 'h') (.cat (litI 's') (litI 'l'))

/-- `((rgb|hsl)a? *\( *(\d+(\.\d+)? *(%|deg|rad|grad|turn)?[,\/ ] *?){3}\d+(\.\d+)? *%?\))`:
the functional-notation alternative of the pattern. -/
def funcColor : Regex :=
  .cat (.alt rgbLit hslLit)
    (.cat (.opt (litI 'a'))
      (.cat spacesG
        (.cat (lit '(')
          (.cat spacesG
            (.cat (.rep 3 3 comp)
              (.cat num
                (.cat spacesG
                  (.cat (.opt (lit '%')) (lit ')')))))))))

/-- `#[0-9A-F]{3,8}` under `/i`: the hex alternative of the pattern. -/
def hexColor : Regex := .cat (lit '#') (.rep 3 8 hexCls)

/-- The source's `colorRegexp`
(`/((rgb|hsl)a? *\( *(\d+(\.\d+)? *(%|deg|rad|grad|turn)?[,\/ ] *?){3}\d+(\.\d+)? *%?\))|(#[0-9A-F]{3,8})/i`),
with the functional alternative first, as written. -/
def colorRegexp : Regex := .alt funcColor hexColor

/-- Successive non-overlapping matches of `r` in `s`, as half-open offset
pairs, the way a JavaScript global `exec` loop visits them: at each position
take the engine's first match, then continue after its end (advancing at least
one character).  `fuel` bounds the recursion; `allMatches` supplies enough. -/
def scanMatches (r : Regex) : Nat → List Char → Nat → List (Nat × Nat)
  | 0, _, _ => []
  | fuel + 1, s, i =>
    match firstMatchLen r s with
    | some len =>
      (i, i + len) :: scanMatches r fuel (s.drop (max len 1)) (i + max len 1)
    | none =>
      match s with
      | [] => []
      | _ :: t => scanMatches r fuel t (i + 1)

/-- All matches of `r` in `s`, leftmost first. -/
def allMatches (r : Regex) (s : List Char) : List (Nat × Nat) :=
  scanMatches r (s.length + 1) s 0

/-- Modelled VS Code API `TextDocument.getWordRangeAtPosition(position, regex)`:
the range of the match of `regex` that contains the given offset (the end
offset counts as inside, as in the editor), or `none` when no match contains
it.  Documents are modelled as a single line, an offset being the position's
character column. -/
def getWordRangeAtPosition (doc : String) (off : Nat) (r : Regex) : Option (Nat × Nat) :=
  (allMatches r doc.toList).find? fun m => m.1 ≤ off && off ≤ m.2

/-- Modelled VS Code API `TextDocument.getText(range?)`: with a range, the text
between its offsets; with `undefined` — which is what the source passes when
`getWordRangeAtPosition` found nothing — the entire document text. -/
def getText (doc : String) : Option (Nat × Nat) → String
  | none => doc
  | some (a, b) => String.mk ((doc.toList.drop a).take (b - a))

/-- Modelled JavaScript `String.prototype.trim` (ASCII whitespace). -/
def jsTrim (s : String) : String :=
  String.mk (((s.toList.dropWhile Char.isWhitespace).reverse.dropWhile
    Char.isWhitespace).reverse)

/-- The editor state `showPicker` reads: the active document's text (one line)
and the character offset of `selection.anchor`. -/
structure EditorState where
  document : String
  cursor : Nat
  deriving DecidableEq

/-- The configuration values read through `vscode.workspace.getConfiguration()`:
`editor.fontFamily` and `editor.fontSize`, opaque pass-through values (a
numeric font size is stringified when handed to `spawn`). -/
structure Config where
  fontFamily : String
  fontSize : String
  deriving DecidableEq

/-- Environment oracle for one invocation: whether the `spawn` call throws
synchronously (and the textual form of the thrown error), and the eventual
outcome of the external process (exit code and accumulated standard output).
The outcome fields let claims about the process result be stated even though
the source never subscribes to the exit event. -/
structure Env where
  spawnThrows : Option String
  exitCode : Int
  stdoutData : String
  deriving DecidableEq

/-- One successful `spawn` call: executable path and argument list. -/
structure SpawnCall where
  cmd : String
  args : List String
  deriving DecidableEq

/-- The observable effects of one `showPicker` invocation: `console.warn`
lines, spawned processes, any assignment to `textEditor.selection`, any text
edits applied to the document (as start offset, end offset, replacement),
`showErrorMessage` notifications, and `console.error` lines. -/
structure Effects where
  warnings : List String
  spawns : List SpawnCall
  selectionSet : Option (Nat × Nat)
  edits : List (Nat × Nat × String)
  errorMessages : List String
  errorLogs : List String
  deriving DecidableEq

/-- The empty effect record. -/
def emptyEffects : Effects :=
  { warnings := [], spawns := [], selectionSet := none, edits := [],
    errorMessages := [], errorLogs := [] }

/-- The body of the `try` block of the first `showPicker` variant
(`lib/commands.js` lines 14–30): bail out with a warning when there is no
active editor; otherwise look up the word range at the cursor with
`colorRegexp`, extract its text (the whole document when the range is
`undefined`), read the font configuration, and spawn the picker with
`[color, '--font', font, '--font-size', fontSize]`.  Returns the effects
performed so far paired with the uncaught synchronous exception, if any.
The body applies no edit and never assigns the selection, as in the source. -/
def showPickerBody (editor : Option EditorState) (config : Config)
    (pickerPath : String) (env : Env) : Effects × Option String :=
  match editor with
  | none => ({ emptyEffects with warnings := ["No active text editor."] }, none)
  | some ed =>
    let wordRange := getWordRangeAtPosition ed.document ed.cursor colorRegexp
    let color := getText ed.document wordRange
    let font := config.fontFamily
    let fontSize := config.fontSize
    match env.spawnThrows with
    | some e => (emptyEffects, some e)
    | none =>
      ({ emptyEffects with
          spawns := [{ cmd := pickerPath,
                       args := [color, "--font", font, "--font-size", fontSize] }] },
        none)

/-- The first `showPicker` variant (`lib/commands.js` lines 13–35): the `try`
body above wrapped in the `catch` that turns a synchronous exception into one
`showErrorMessage(e+'')` notification and one `console.error(e)` line.  The
function is total: the handler always returns normally. -/
def showPicker (editor : Option EditorState) (config : Config)
    (pickerPath : String) (env : Env) : Effects :=
  match showPickerBody editor config pickerPath env with
  | (eff, none) => eff
  | (eff, some e) =>
    { eff with errorMessages := eff.errorMessages ++ [e],
               errorLogs := eff.errorLogs ++ [e] }

/-- The second exported `showPicker` variant (`lib/commands.js` lines 47–66):
identical except that it reads no font configuration and spawns the picker
with the single argument `[color]`. -/
def showPickerNoFont (editor : Option EditorState) (pickerPath : String)
    (env : Env) : Effects :=
  match editor with
  | none => { emptyEffects with warnings := ["No active text editor."] }
  | some ed =>
    let wordRange := getWordRangeAtPosition ed.document ed.cursor colorRegexp
    let color := getText ed.document wordRange
    match env.spawnThrows with
    | some e =>
      { emptyEffects with errorMessages := [e], errorLogs := [e] }
    | none =>
      { emptyEffects with spawns := [{ cmd := pickerPath, args := [color] }] }

/-- Replaying an edit list over the document text; the source produces no
edits, so this is how "the document is left unchanged" is expressed. -/
def applyEdit (doc : String) (e : Nat × Nat × String) : String :=
  String.mk ((doc.toList.take e.1) ++ e.2.2.toList ++ (doc.toList.drop e.2.1))

/-- The document text after all edits of an invocation have been applied. -/
def finalDocument (doc : String) (eff : Effects) : String :=
  eff.edits.foldl applyEdit doc

/-- `command.split('.').slice(-1)` as used by the activation module: the final
dot-separated segment of a command identifier (JavaScript coerces the
one-element array to that segment when it is used as a property key). -/
def lastSegment (s : String) : String := (s.splitOn ".").getLastD ""

/-- The activation module (`extension.js` lines 5–10): for every entry of the
manifest's `contributes.commands`, register the command identifier with the
exported handler named by its final segment and push the resulting disposable
onto `context.subscriptions`.  The model returns the registration list built
up by `registerCommand` together with the final subscription list; a handler
is an arbitrary value of type `H` and `extCommands` is the module's exported
property lookup. -/
def activate {H : Type} (manifest : List String) (extCommands : String → H)
    (contextSubscriptions : List (String × H)) :
    List (String × H) × List (String × H) :=
  manifest.foldl
    (fun st command =>
      let disposable := (command, extCommands (lastSegment command))
      (st.1 ++ [disposable], st.2 ++ [disposable]))
    ([], contextSubscriptions)

end ColorPicker

namespace ColorPicker

theorem accepts_iff_mem (r : Regex) (s : List Char) :
    accepts r s = true ↔ [] ∈ residuals r s := by
  simp [accepts, List.any_eq_true, List.isEmpty_iff]

theorem residuals_colorRegexp_hash (s : List Char) :
    residuals colorRegexp ('#' :: s) = repRes (residuals hexCls) 3 8 s ++ [] := rfl

theorem repRes_hexCls_nil_mem (hi : Nat) : ∀ (lo : Nat) (t : List Char),
    (∀ c ∈ t, hexP c = true) →
    ([] ∈ repRes (residuals hexCls) lo hi t ↔ lo ≤ t.length ∧ t.length ≤ hi) := by
  induction hi with
  | zero =>
    intro lo t _
    cases lo with
    | zero =>
      show [] ∈ [t] ↔ 0 ≤ t.length ∧ t.length ≤ 0
      simp [List.length_eq_zero, eq_comm, Nat.le_zero]
    | succ n =>
      show [] ∈ ([] : List (List Char)) ↔ n + 1 ≤ t.length ∧ t.length ≤ 0
      simp only [List.not_mem_nil, false_iff]
      omega
  | succ hi ih =>
    intro lo t ht
    cases t with
    | nil =>
      have hres : residuals hexCls ([] : List Char) = [] := rfl
      cases lo with
      | zero =>
        show [] ∈ (residuals hexCls []).flatMap
            (fun t => repRes (residuals hexCls) (0 - 1) hi t) ++ [[]] ↔
          0 ≤ List.length ([] : List Char) ∧ List.length ([] : List Char) ≤ hi + 1
        rw [hres]
        simp
      | succ n =>
        show [] ∈ (residuals hexCls []).flatMap
            (fun t => repRes (residuals hexCls) (n + 1 - 1) hi t) ↔
          n + 1 ≤ List.length ([] : List Char) ∧ List.length ([] : List Char) ≤ hi + 1
        rw [hres]
        simp only [List.flatMap_nil, List.not_mem_nil, List.length_nil, false_iff]
        omega
    | cons c t' =>
      have hc : hexP c = true := ht c (List.mem_cons_self c t')
      have ht' : ∀ x ∈ t', hexP x = true := fun x hx => ht x (List.mem_cons_of_mem c hx)
      have hres : residuals hexCls (c :: t') = [t'] := by
        simp [residuals, hexCls, hc]
      cases lo with
      | zero =>
        show [] ∈ (residuals hexCls (c :: t')).flatMap
            (fun t => repRes (residuals hexCls) (0 - 1) hi t) ++ [c :: t'] ↔
          0 ≤ (c :: t').length ∧ (c :: t').length ≤ hi + 1
        rw [hres]
        simp only [List.flatMap_cons, List.flatMap_nil, List.append_nil, List.mem_append,
          List.mem_singleton, List.length_cons]
        rw [ih (0 - 1) t' ht']
        constructor
        · rintro (h | h)
          · omega
          · exact absurd h.symm (List.cons_ne_nil c t')
        · intro h
          left
          omega
      | succ n =>
        show [] ∈ (residuals hexCls (c :: t')).flatMap
            (fun t => repRes (residuals hexCls) (n + 1 - 1) hi t) ↔
          n + 1 ≤ (c :: t').length ∧ (c :: t').length ≤ hi + 1
        rw [hres]
        simp only [List.flatMap_cons, List.flatMap_nil, List.append_nil, List.length_cons]
        rw [ih (n + 1 - 1) t' ht']
        omega

end ColorPicker

namespace ColorPicker

/-- C5 (amended): the pattern's hex alternative matches `#` followed by hex
digits exactly when there are between 3 and 8 of them — so 5- and 7-digit
literals are matched as well, refuting the claim's restriction to
3, 4, 6 or 8. -/
theorem hex_length_iff (s : List Char) (h : ∀ c ∈ s, hexP c = true) :
    accepts colorRegexp ('#' :: s) = true ↔ 3 ≤ s.length ∧ s.length ≤ 8 := by
  rw [accepts_iff_mem, residuals_colorRegexp_hash, List.append_nil]
  exact repRes_hexCls_nil_mem 8 3 s h

/-- Witness for `hex_length_iff` at the 5-digit string `ABC12`. -/
theorem hex_length_iff_witness :
    accepts colorRegexp ('#' :: "ABC12".toList) = true :=
  (hex_length_iff ("ABC12".toList) (by decide)).mpr (by decide)

/-- C5 counterexample: `#12345` has five hex digits, which the claim says the
pattern does not match, yet the pattern matches it (the source repetition is
`{3,8}`, not restricted to 3, 4, 6, 8). -/
theorem hex_five_digits_matches :
    accepts colorRegexp ("#12345".toList) = true ∧
    ("12345".toList).length = 5 := by
  decide

/-- C2: the pattern rejects three-component functional notation and alpha
components written with a leading decimal point.  `rgb(10, 20, 30)` and
`rgba(10,20,30,.5)` are the claim's own examples; `rgba(255, 17, 34, .53)`
and `hsl(90deg, .2, .5)` are listed in the source's comment directly above
`colorRegexp` as strings it matches.  None of them produces any match, so no
range is found at any cursor offset inside them. -/
theorem colorRegexp_rejects_documented_examples :
    allMatches colorRegexp ("rgb(10, 20, 30)".toList) = [] ∧
    allMatches colorRegexp ("rgba(10,20,30,.5)".toList) = [] ∧
    getWordRangeAtPosition "rgba(10,20,30,.5)" 3 colorRegexp = none ∧
    allMatches colorRegexp ("rgba(255, 17, 34, .53)".toList) = [] ∧
    allMatches colorRegexp ("hsl(90deg, .2, .5)".toList) = [] := by
  decide

end ColorPicker

namespace ColorPicker

/-- C1: evaluation at the claim's scenario.  The picker exits 0 emitting
`#AABBCC\n`, whose trimmed form re-matches the pattern, and the cursor sits on
the literal `#FF0000`; yet the handler applies no edit and the document is
unchanged — the source never subscribes to the process exit event. -/
theorem picker_result_not_applied :
    jsTrim "#AABBCC\n" = "#AABBCC" ∧
    accepts colorRegexp ((jsTrim "#AABBCC\n").toList) = true ∧
    getWordRangeAtPosition "#FF0000" 0 colorRegexp = some (0, 7) ∧
    (showPicker (some ⟨"#FF0000", 0⟩) ⟨"Menlo", "12"⟩ "/picker"
      ⟨none, 0, "#AABBCC\n"⟩).edits = [] ∧
    finalDocument "#FF0000"
      (showPicker (some ⟨"#FF0000", 0⟩) ⟨"Menlo", "12"⟩ "/picker"
        ⟨none, 0, "#AABBCC\n"⟩) = "#FF0000" := by
  decide

/-- C3 counterexample: the second exported `showPicker` variant spawns the
picker with the single argument `[color]`, not with the four extra font
arguments the claim asserts for every invocation. -/
theorem showPicker_variant_single_argument :
    (showPickerNoFont (some ⟨"#F128", 2⟩) "/picker" ⟨none, 0, ""⟩).spawns =
      [{ cmd := "/picker", args := ["#F128"] }] ∧
    (["#F128"] : List String).length = 1 := by
  decide

/-- C3 (amended): the variant that reads the font configuration spawns the
picker with exactly `[color, '--font', fontFamily, '--font-size', fontSize]`;
the other exported variant spawns it with the single argument `[color]`. -/
theorem showPicker_spawn_arguments (ed : EditorState) (config : Config)
    (pickerPath : String) (env : Env) (h : env.spawnThrows = none) :
    (showPicker (some ed) config pickerPath env).spawns =
      [{ cmd := pickerPath,
         args := [getText ed.document
                    (getWordRangeAtPosition ed.document ed.cursor colorRegexp),
                  "--font", config.fontFamily, "--font-size", config.fontSize] }] ∧
    (showPickerNoFont (some ed) pickerPath env).spawns =
      [{ cmd := pickerPath,
         args := [getText ed.document
                    (getWordRangeAtPosition ed.document ed.cursor colorRegexp)] }] := by
  constructor <;> simp [showPicker, showPickerBody, showPickerNoFont, h, emptyEffects]

/-- Witness for `showPicker_spawn_arguments` on the document `#FFF`. -/
theorem showPicker_spawn_arguments_witness :
    (showPicker (some ⟨"#FFF", 1⟩) ⟨"Menlo", "12"⟩ "/picker" ⟨none, 0, ""⟩).spawns =
      [{ cmd := "/picker", args := ["#FFF", "--font", "Menlo", "--font-size", "12"] }] := by
  rw [(showPicker_spawn_arguments ⟨"#FFF", 1⟩ ⟨"Menlo", "12"⟩ "/picker"
    ⟨none, 0, ""⟩ rfl).1]
  decide

end ColorPicker

namespace ColorPicker

/-- C4 counterexample: with the cursor on `hello world`, no text matches the
color pattern, yet the invocation is not a no-op — a process is spawned
(`getText(undefined)` hands it the whole document as the color argument). -/
theorem no_match_still_spawns :
    getWordRangeAtPosition "hello world" 2 colorRegexp = none ∧
    (showPicker (some ⟨"hello world", 2⟩) ⟨"Menlo", "12"⟩ "/picker"
      ⟨none, 0, ""⟩).spawns ≠ [] := by
  decide

/-- C4 (amended): when no match contains the cursor offset, the word range is
`undefined`, `getText` returns the entire document, and the picker is spawned
with that whole text as its color argument; no edit is made. -/
theorem no_match_spawns_whole_document (ed : EditorState) (config : Config)
    (pickerPath : String) (env : Env) (h : env.spawnThrows = none)
    (hm : getWordRangeAtPosition ed.document ed.cursor colorRegexp = none) :
    (showPicker (some ed) config pickerPath env).spawns =
      [{ cmd := pickerPath,
         args := [ed.document, "--font", config.fontFamily,
                  "--font-size", config.fontSize] }] ∧
    (showPicker (some ed) config pickerPath env).edits = [] := by
  simp [showPicker, showPickerBody, h, hm, getText, emptyEffects]

/-- Witness for `no_match_spawns_whole_document` on the document `hello`. -/
theorem no_match_spawns_whole_document_witness :
    (showPicker (some ⟨"hello", 1⟩) ⟨"Fira Code", "13"⟩ "/picker"
      ⟨none, 0, ""⟩).spawns =
      [{ cmd := "/picker",
         args := ["hello", "--font", "Fira Code", "--font-size", "13"] }] :=
  (no_match_spawns_whole_document ⟨"hello", 1⟩ ⟨"Fira Code", "13"⟩ "/picker"
    ⟨none, 0, ""⟩ rfl (by decide)).1

/-- C6 counterexample: the cursor offset 1 lies inside the matched literal
`#FFF` (range 0–4) and the picker is spawned, yet the editor's selection is
never assigned. -/
theorem selection_not_set_at_match :
    getWordRangeAtPosition "#FFF" 1 colorRegexp = some (0, 4) ∧
    (showPicker (some ⟨"#FFF", 1⟩) ⟨"Consolas", "14"⟩ "/p"
      ⟨none, 0, ""⟩).selectionSet = none ∧
    (showPicker (some ⟨"#FFF", 1⟩) ⟨"Consolas", "14"⟩ "/p"
      ⟨none, 0, ""⟩).spawns ≠ [] := by
  decide

/-- C6 (amended): neither `showPicker` variant ever modifies the editor's
visible selection; the matched range is used only to extract the color text. -/
theorem selection_never_modified (editor : Option EditorState) (config : Config)
    (pickerPath : String) (env : Env) :
    (showPicker editor config pickerPath env).selectionSet = none ∧
    (showPickerNoFont editor pickerPath env).selectionSet = none := by
  cases editor <;> cases h : env.spawnThrows <;>
    simp [showPicker, showPickerBody, showPickerNoFont, h, emptyEffects]

/-- C7: whenever `spawn` itself does not throw, an invocation with an active
editor produces no edit and no error notification, whatever the external
process later does — in particular when it exits non-zero or emits output
whose trimmed form does not re-match the pattern, the document is left
byte-for-byte unchanged and nothing is surfaced. -/
theorem failed_picker_leaves_document_unchanged (ed : EditorState)
    (config : Config) (pickerPath : String) (env : Env)
    (h : env.spawnThrows = none)
    (_hfail : env.exitCode ≠ 0 ∨
      accepts colorRegexp ((jsTrim env.stdoutData).toList) = false) :
    (showPicker (some ed) config pickerPath env).edits = [] ∧
    (showPicker (some ed) config pickerPath env).errorMessages = [] ∧
    finalDocument ed.document (showPicker (some ed) config pickerPath env) =
      ed.document := by
  simp [showPicker, showPickerBody, h, emptyEffects, finalDocument]

/-- Witness for `failed_picker_leaves_document_unchanged`: the process exits
with code 1 after printing `cancelled`. -/
theorem failed_picker_leaves_document_unchanged_witness :
    (showPicker (some ⟨"#1A2b3C", 3⟩) ⟨"Menlo", "12"⟩ "/picker"
      ⟨none, 1, "cancelled"⟩).edits = [] ∧
    (showPicker (some ⟨"#1A2b3C", 3⟩) ⟨"Menlo", "12"⟩ "/picker"
      ⟨none, 1, "cancelled"⟩).errorMessages = [] ∧
    finalDocument "#1A2b3C"
      (showPicker (some ⟨"#1A2b3C", 3⟩) ⟨"Menlo", "12"⟩ "/picker"
        ⟨none, 1, "cancelled"⟩) = "#1A2b3C" :=
  failed_picker_leaves_document_unchanged ⟨"#1A2b3C", 3⟩ ⟨"Menlo", "12"⟩
    "/picker" ⟨none, 1, "cancelled"⟩ rfl (Or.inl (by decide))

end ColorPicker

namespace ColorPicker

/-- C8: any synchronous exception `e` escaping the `try` body is caught by the
single top-level handler and converted into exactly one user-visible error
message (`showErrorMessage(e+'')`) and exactly one diagnostic log entry
(`console.error(e)`); `showPicker` is a total function, so the handler always
returns normally. -/
theorem exceptions_caught_once (editor : Option EditorState) (config : Config)
    (pickerPath : String) (env : Env) (e : String)
    (h : (showPickerBody editor config pickerPath env).2 = some e) :
    (showPicker editor config pickerPath env).errorMessages = [e] ∧
    (showPicker editor config pickerPath env).errorLogs = [e] := by
  cases editor with
  | none => simp [showPickerBody] at h
  | some ed =>
    cases hsp : env.spawnThrows with
    | none => simp [showPickerBody, hsp] at h
    | some e' =>
      simp only [showPickerBody, hsp] at h
      cases h
      simp [showPicker, showPickerBody, hsp, emptyEffects]

/-- Witness for `exceptions_caught_once`: the `spawn` call throws a missing
executable error. -/
theorem exceptions_caught_once_witness :
    (showPicker (some ⟨"#FFF", 0⟩) ⟨"Menlo", "12"⟩ "/missing"
      ⟨some "Error: spawn ENOENT", 0, ""⟩).errorMessages =
        ["Error: spawn ENOENT"] ∧
    (showPicker (some ⟨"#FFF", 0⟩) ⟨"Menlo", "12"⟩ "/missing"
      ⟨some "Error: spawn ENOENT", 0, ""⟩).errorLogs =
        ["Error: spawn ENOENT"] :=
  exceptions_caught_once (some ⟨"#FFF", 0⟩) ⟨"Menlo", "12"⟩ "/missing"
    ⟨some "Error: spawn ENOENT", 0, ""⟩ "Error: spawn ENOENT" (by decide)

/-- C9: at activation, every command identifier of the manifest is registered,
in order, with the exported handler looked up under the final dot-separated
segment of the identifier, and each resulting disposable is appended to the
extension context's subscriptions. -/
theorem activate_registers_manifest_commands {H : Type}
    (manifest : List String) (extCommands : String → H)
    (contextSubscriptions : List (String × H)) :
    (activate manifest extCommands contextSubscriptions).1 =
      manifest.map (fun c => (c, extCommands (lastSegment c))) ∧
    (activate manifest extCommands contextSubscriptions).2 =
      contextSubscriptions ++
        manifest.map (fun c => (c, extCommands (lastSegment c))) := by
  have aux : ∀ (ms : List String) (a b : List (String × H)),
      ms.foldl (fun st command =>
        let disposable := (command, extCommands (lastSegment command))
        (st.1 ++ [disposable], st.2 ++ [disposable])) (a, b) =
      (a ++ ms.map (fun c => (c, extCommands (lastSegment c))),
       b ++ ms.map (fun c => (c, extCommands (lastSegment c)))) := by
    intro ms
    induction ms with
    | nil => intro a b; simp
    | cons m ms ih =>
      intro a b
      simp only [List.foldl_cons, List.map_cons]
      rw [ih]
      simp [List.append_assoc]
  have h := aux manifest [] contextSubscriptions
  constructor
  · rw [show (activate manifest extCommands contextSubscriptions).1 =
      (manifest.foldl (fun st command =>
        let disposable := (command, extCommands (lastSegment command))
        (st.1 ++ [disposable], st.2 ++ [disposable]))
        ([], contextSubscriptions)).1 from rfl, h]
    simp
  · rw [show (activate manifest extCommands contextSubscriptions).2 =
      (manifest.foldl (fun st command =>
        let disposable := (command, extCommands (lastSegment command))
        (st.1 ++ [disposable], st.2 ++ [disposable]))
        ([], contextSubscriptions)).2 from rfl, h]

/-- C10: no code path of either `showPicker` variant performs any document
edit: whatever the editor state, configuration, picker path and process
outcome, the edit list is empty and the document text is left unchanged. -/
theorem showPicker_never_edits (editor : Option EditorState) (config : Config)
    (pickerPath : String) (env : Env) (doc : String) :
    (showPicker editor config pickerPath env).edits = [] ∧
    (showPickerNoFont editor pickerPath env).edits = [] ∧
    finalDocument doc (showPicker editor config pickerPath env) = doc ∧
    finalDocument doc (showPickerNoFont editor pickerPath env) = doc := by
  cases editor <;> cases h : env.spawnThrows <;>
    simp [showPicker, showPickerBody, showPickerNoFont, h, emptyEffects,
      finalDocument]

end ColorPicker
